import Mathlib

/-!
Verification of the clonellm conversation-memory subsystem and its
orchestrator against the repository's specification.

The development shallowly embeds `src/clonellm/memory.py` and
`src/clonellm/core.py`: Python objects become Lean structures, methods
become pure functions threading the mutated state explicitly, and code
that can raise returns `Except PyErr`.  External collaborators (the
embedding backend, the vector store search, the chat model, the prompt
templates, the text splitter) are abstracted as function parameters, in
line with the specification's treatment of them as opaque capability
interfaces.
-/

/-- A chat message: one conversational turn.  `BaseMessage` in the source
is an opaque langchain value; the orchestrator only ever constructs a
human (user) turn and an assistant turn, so two constructors suffice. -/
inductive Msg where
  | human (content : String)
  | ai (content : String)
deriving Repr, DecidableEq

/-- Python exceptions that the embedded code can raise.  `valueError`
carries the index reported in the message
`f"document at index \x7bi\x7d is not a valid Document"`. -/
inductive PyErr where
  | typeError
  | attributeError
  | valueError (idx : Nat)
deriving Repr, DecidableEq

/-- State of `InMemoryHistory` (memory.py): the ordered message log
`messages` and the retention bound `memory` (a Python `int`, so `Int`). -/
structure InMemoryHistory (α : Type) where
  memory : Int
  messages : List α
deriving Repr, DecidableEq

/-- Embeds the call `InMemoryHistory(...)`: `__init__(self, memory: int)`
declares exactly one required parameter, so Python binds a one-element
argument list and raises `TypeError` for any other arity. -/
def InMemoryHistory.callCtor (α : Type) (args : List Int) :
    Except PyErr (InMemoryHistory α) :=
  match args with
  | [m] => .ok { memory := m, messages := [] }
  | _ => .error .typeError

/-- `InMemoryHistory.add_messages`: appends the batch one message at a
time, then, if `self.memory > 0`, keeps only the last `memory` messages
(`self.messages[-self.memory:]`).  Appending one-by-one followed by a
single slice equals appending the whole batch and trimming once. -/
def addMessages (h : InMemoryHistory α) (msgs : List α) : InMemoryHistory α :=
  let ms := h.messages ++ msgs
  if 0 < h.memory then
    { h with messages := ms.drop (ms.length - h.memory.toNat) }
  else
    { h with messages := ms }

/-- `InMemoryHistory.clear`: `self.messages = []`. -/
def InMemoryHistory.clearLog (h : InMemoryHistory α) : InMemoryHistory α :=
  { h with messages := [] }

/-- The last `k` elements of a list (Python's `xs[-k:]` for `k > 0`). -/
def lastN (k : Nat) (xs : List α) : List α :=
  xs.drop (xs.length - k)

/-- The trimming that `add_messages` applies after appending: keep the
last `memory` messages when the bound is positive, everything otherwise. -/
def trim (m : Int) (xs : List α) : List α :=
  if 0 < m then lastN m.toNat xs else xs

theorem lastN_length (k : Nat) (xs : List α) :
    (lastN k xs).length = min xs.length k := by
  simp only [lastN, List.length_drop]
  omega

theorem lastN_append_lastN (k : Nat) (u v : List α) :
    lastN k (lastN k u ++ v) = lastN k (u ++ v) := by
  rcases le_or_lt u.length k with h | h
  · have h0 : u.length - k = 0 := Nat.sub_eq_zero_of_le h
    simp [lastN, h0]
  · have hle : u.length - k ≤ u.length := Nat.sub_le _ _
    have hsplit : lastN k u ++ v = (u ++ v).drop (u.length - k) := by
      unfold lastN
      rw [List.drop_append_of_le_length hle]
    rw [hsplit]
    unfold lastN
    rw [List.drop_drop]
    simp only [List.length_drop, List.length_append]
    congr 1
    omega

theorem trim_append_trim (m : Int) (u v : List α) :
    trim m (trim m u ++ v) = trim m (u ++ v) := by
  unfold trim
  split
  · exact lastN_append_lastN _ _ _
  · rfl

theorem addMessages_memory (h : InMemoryHistory α) (msgs : List α) :
    (addMessages h msgs).memory = h.memory := by
  unfold addMessages
  split <;> rfl

theorem addMessages_messages (h : InMemoryHistory α) (msgs : List α) :
    (addMessages h msgs).messages = trim h.memory (h.messages ++ msgs) := by
  unfold addMessages trim lastN
  split <;> rfl

theorem addMessages_eq (m : Int) (l msgs : List α) :
    addMessages ⟨m, l⟩ msgs = ⟨m, trim m (l ++ msgs)⟩ := by
  unfold addMessages trim lastN
  split <;> rfl

theorem foldl_addMessages (m : Int) (bs : List (List α)) (u : List α) :
    bs.foldl addMessages ⟨m, trim m u⟩ = ⟨m, trim m (u ++ bs.flatten)⟩ := by
  induction bs generalizing u with
  | nil => simp [trim]
  | cons b bs ih =>
    rw [List.foldl_cons, addMessages_eq, trim_append_trim, ih (u ++ b)]
    simp [List.flatten_cons, List.append_assoc]

theorem trim_nil (m : Int) : trim m ([] : List α) = [] := by
  simp [trim, lastN]

/-- C1: for a positive retention bound `m`, after any sequence of
`add_messages` batches starting from an empty history the stored log has
length `min(total appended, m)` and equals the last `m` appended messages
in order; for `m ≤ 0` the log is exactly all appended messages, so its
length after `n` appended messages is `n`.  The theorem quantifies over
every batch sequence `bs`, hence it holds after each append (apply it to
each prefix of the batch sequence). -/
theorem history_retention (m : Int) (bs : List (List Msg)) :
    let h := bs.foldl addMessages ⟨m, []⟩
    (0 < m →
      h.messages.length = min bs.flatten.length m.toNat ∧
      h.messages = lastN m.toNat bs.flatten) ∧
    (m ≤ 0 →
      h.messages = bs.flatten ∧ h.messages.length = bs.flatten.length) := by
  intro h
  have hfold : h = ⟨m, trim m bs.flatten⟩ := by
    have := foldl_addMessages m bs []
    rw [trim_nil] at this
    simpa using this
  constructor
  · intro hm
    have hmsg : h.messages = lastN m.toNat bs.flatten := by
      rw [hfold]; simp [trim, hm]
    refine ⟨?_, hmsg⟩
    rw [hmsg, lastN_length]
  · intro hm
    have hmsg : h.messages = bs.flatten := by
      rw [hfold]; simp [trim]
      intro hc; omega
    exact ⟨hmsg, by rw [hmsg]⟩

/-- Closed instance of `history_retention`: bound 2, three singleton
batches; the log keeps the last two messages. -/
theorem history_retention_witness :
    ([[Msg.human "a"], [Msg.ai "b"], [Msg.human "c"]].foldl addMessages
        ⟨(2 : Int), []⟩).messages.length =
      min [Msg.human "a", Msg.ai "b", Msg.human "c"].length (2 : Int).toNat ∧
    ([[Msg.human "a"], [Msg.ai "b"], [Msg.human "c"]].foldl addMessages
        ⟨(2 : Int), []⟩).messages =
      lastN (2 : Int).toNat [Msg.human "a", Msg.ai "b", Msg.human "c"] := by
  have := (history_retention 2 [[Msg.human "a"], [Msg.ai "b"], [Msg.human "c"]]).1
    (by decide)
  simpa using this

/-! ## The process-wide session store (`_store` in memory.py)

The store is a Python dict from session id to `InMemoryHistory`.  It is
modelled as an association list whose `find` returns the most recently
set binding, `set` prepends a binding (dict assignment), and erasure
filters a key out (dict deletion).  The orchestrator can pass
`self._session_id` before it is ever assigned a string, when it is still
Python `None`, so keys are `Option String`. -/

abbrev SId := Option String

abbrev Store := List (SId × InMemoryHistory Msg)

/-- Dict lookup: the most recently set binding for `sid`, if any. -/
def Store.find : Store → SId → Option (InMemoryHistory Msg)
  | [], _ => none
  | (k, h) :: rest, sid => if k = sid then some h else Store.find rest sid

/-- Dict assignment `_store[session_id] = h`. -/
def Store.set (s : Store) (sid : SId) (h : InMemoryHistory Msg) : Store :=
  (sid, h) :: s

/-- Dict deletion of the binding for `sid` (all shadowed copies go too,
so lookups behave exactly as after a dict `del`/`pop`). -/
def Store.erase : Store → SId → Store
  | [], _ => []
  | (k, h) :: rest, sid =>
    if k = sid then Store.erase rest sid else (k, h) :: Store.erase rest sid

/-- `get_by_session_id` from memory.py, verbatim: return the stored
history if the id is present; otherwise evaluate `InMemoryHistory()` —
a call that passes no argument to `__init__(self, memory: int)` — and,
had it succeeded, store and return the fresh history. -/
def get_by_session_id (store : Store) (sid : SId) :
    Except PyErr (Store × InMemoryHistory Msg) :=
  match store.find sid with
  | some h => .ok (store, h)
  | none =>
    match InMemoryHistory.callCtor Msg [] with
    | .error e => .error e
    | .ok h => .ok (store.set sid h, h)

/-- Modelled from the spec: `clear_session_history` is imported by
core.py from `.memory` but not defined in the provided memory.py.  The
spec says it removes all messages associated with the id by dropping the
mapping entry and that it never fails, including for unknown ids; hence
a total function. -/
def clear_session_history (store : Store) (sid : SId) : Store :=
  store.erase sid

/-- Modelled from the spec: `get_session_history` is imported by core.py
from `.memory` but not defined in the provided memory.py.  The spec says
it returns the existing history for the id, creating an empty one with
the store's configured retention bound if absent, and never fails. -/
def get_session_history (bound : Int) (store : Store) (sid : SId) :
    Store × InMemoryHistory Msg :=
  match store.find sid with
  | some h => (store, h)
  | none => (store.set sid ⟨bound, []⟩, ⟨bound, []⟩)

/-- Appending a batch through a history handle returned by the store:
Python aliasing means the store's entry for that id is the mutated log. -/
def appendThrough (store : Store) (sid : SId) (msgs : List Msg) : Store :=
  match store.find sid with
  | some h => store.set sid (addMessages h msgs)
  | none => store

theorem find_erase_ne (s : Store) (sid sid' : SId) (h : sid' ≠ sid) :
    (s.erase sid).find sid' = s.find sid' := by
  induction s with
  | nil => rfl
  | cons p rest ih =>
    rcases p with ⟨k, hh⟩
    by_cases hp : k = sid
    · have hk : ¬ k = sid' := fun hc => h (hc ▸ hp)
      simp [Store.erase, Store.find, hp, hk, ih, Ne.symm h]
    · by_cases hq : k = sid'
      · simp [Store.erase, Store.find, hp, hq, h]
      · simp [Store.erase, Store.find, hp, hq, ih]

theorem find_erase_self (s : Store) (sid : SId) :
    (s.erase sid).find sid = none := by
  induction s with
  | nil => rfl
  | cons p rest ih =>
    rcases p with ⟨k, hh⟩
    by_cases hp : k = sid
    · simp [Store.erase, Store.find, hp, ih]
    · simp [Store.erase, Store.find, hp, ih]

/-- C2: clearing a session id is total (the spec-modelled
`clear_session_history` raises nothing, by construction it returns a
store for every input), leaves every other session's history exactly as
it was, and removes the cleared id so a later get starts fresh. -/
theorem clear_session_frame (store : Store) (sid sid' : String)
    (h : sid' ≠ sid) :
    (clear_session_history store (some sid)).find (some sid') =
      store.find (some sid') ∧
    (clear_session_history store (some sid)).find (some sid) = none := by
  refine ⟨?_, find_erase_self store (some sid)⟩
  exact find_erase_ne store (some sid) (some sid') (by simpa using h)

/-- Closed instance of `clear_session_frame`: clearing an id the store
has never seen leaves another session's history untouched. -/
theorem clear_session_frame_witness :
    (clear_session_history [(some "a", ⟨(3 : Int), [Msg.human "x"]⟩)]
        (some "b")).find (some "a") =
      Store.find [(some "a", ⟨(3 : Int), [Msg.human "x"]⟩)] (some "a") ∧
    (clear_session_history [(some "a", ⟨(3 : Int), [Msg.human "x"]⟩)]
        (some "b")).find (some "b") = none :=
  clear_session_frame [(some "a", ⟨(3 : Int), [Msg.human "x"]⟩)] "b" "a"
    (by decide)

/-- C3 (failing input): the code's `get_by_session_id` on a session id
absent from the store evaluates `InMemoryHistory()`, which omits the
required `memory` argument of `__init__(self, memory: int)`, so the call
raises `TypeError` instead of creating an empty history. -/
theorem get_by_session_id_absent_raises :
    get_by_session_id [] (some "s1") = .error .typeError := rfl

/-- C10: for a live session id (one the store already maps), every call
to `get_by_session_id` succeeds, leaves the store untouched and returns
the store's own entry — so repeated calls return the same underlying
log, and a batch appended through the handle one call returned is
observed by the next call. -/
theorem get_by_session_id_live (store : Store) (sid : SId)
    (h : InMemoryHistory Msg) (msgs : List Msg)
    (hlive : store.find sid = some h) :
    get_by_session_id store sid = .ok (store, h) ∧
    get_by_session_id (appendThrough store sid msgs) sid =
      .ok (appendThrough store sid msgs, addMessages h msgs) := by
  constructor
  · simp [get_by_session_id, hlive]
  · have happ : appendThrough store sid msgs =
        store.set sid (addMessages h msgs) := by
      simp [appendThrough, hlive]
    have hfind : (appendThrough store sid msgs).find sid =
        some (addMessages h msgs) := by
      rw [happ]; simp [Store.set, Store.find]
    simp [get_by_session_id, hfind]

/-- Closed instance of `get_by_session_id_live` at a one-entry store. -/
theorem get_by_session_id_live_witness :
    get_by_session_id [(some "s", ⟨(5 : Int), []⟩)] (some "s") =
      .ok ([(some "s", ⟨(5 : Int), []⟩)], ⟨(5 : Int), []⟩) ∧
    get_by_session_id
        (appendThrough [(some "s", ⟨(5 : Int), []⟩)] (some "s")
          [Msg.human "q"]) (some "s") =
      .ok (appendThrough [(some "s", ⟨(5 : Int), []⟩)] (some "s")
          [Msg.human "q"],
        addMessages ⟨(5 : Int), []⟩ [Msg.human "q"]) :=
  get_by_session_id_live [(some "s", ⟨(5 : Int), []⟩)] (some "s")
    ⟨(5 : Int), []⟩ [Msg.human "q"] (by decide)

/-! ## The orchestrator (`CloneLLM` in core.py)

Instance state is the attributes a `CloneLLM` object observes; methods
are pure functions returning the result together with the instance and
store state after the call (a Python exception raised mid-method leaves
the mutations made before the raise in place, which the explicit state
threading reproduces).  The external capabilities — text splitter,
vector search, query contextualization, prompt assembly and the chat
model — are a parameter record, as the spec treats them as opaque
collaborators. -/

/-- A Python value in a document batch: either a langchain `Document`
(identified here by its page content) or any other value, which
`isinstance(doc, Document)` rejects. -/
inductive PyVal where
  | doc (content : String)
  | other (repr : String)
deriving Repr, DecidableEq

def PyVal.isDoc : PyVal → Bool
  | .doc _ => true
  | .other _ => false

/-- Attribute state of a `CloneLLM` instance.  `documents` is `None` for
instances built by `from_persist_directory`; `db` is the retrieval index
(the chunks it holds) or `None`; `splitterSet` records whether
`_splitter` is non-None; `isFitted` is `__is_fitted`. -/
structure CloneLLM where
  model : String
  documents : Option (List PyVal)
  user_profile : Option String
  memory : Option Bool
  isFitted : Bool
  splitterSet : Bool
  sessionId : SId
  db : Option (List PyVal)
deriving Repr, DecidableEq

/-- The external capabilities used by the orchestrator:
`split` is `CharacterTextSplitter.split_documents`; `retrieve idx q k`
is the vector search behind `db.as_retriever(search_kwargs=dict(k=1))`;
`contextualize hist q` is the history-aware query reformulation;
`render`/`renderH` assemble the context/profile/question prompt (without
and with chat history); `generate` is `ChatLiteLLM` composed with
`StrOutputParser`. -/
structure ChainEnv where
  split : List PyVal → List PyVal
  retrieve : List PyVal → String → Nat → List PyVal
  contextualize : List Msg → String → String
  render : Option String → List PyVal → String → String
  renderH : Option String → List PyVal → List Msg → String → String
  generate : String → String

/-- `CloneLLM.clear_memory`: clear the history of the current session
id, then replace the id with a newly generated one (`newId` stands for
the fresh `str(uuid.uuid4())`). -/
def clear_memory (c : CloneLLM) (store : Store) (newId : String) :
    CloneLLM × Store :=
  ({ c with sessionId := some newId }, clear_session_history store c.sessionId)

/-- `CloneLLM.__init__` followed by `_internal_init`: documents stored,
splitter installed, then `clear_memory` (which clears the still-None
session id and generates the first session id). -/
def CloneLLM.init (model : String) (documents : List PyVal)
    (user_profile : Option String) (memory : Option Bool)
    (store : Store) (newId : String) : CloneLLM × Store :=
  let c : CloneLLM :=
    { model := model, documents := some documents,
      user_profile := user_profile, memory := memory,
      isFitted := false, splitterSet := true, sessionId := none, db := none }
  clear_memory c store newId

/-- `CloneLLM.from_persist_directory`: loads the persisted collection
into `db` and sets the fitted flag before `__init__` runs (both are
assigned on the class, which the constructed instance observes), with
`documents=None`; `fit` itself never runs on this path. -/
def from_persist_directory (persisted : List PyVal) (model : String)
    (user_profile : Option String) (memory : Option Bool)
    (store : Store) (newId : String) : CloneLLM × Store :=
  let c : CloneLLM :=
    { model := model, documents := none,
      user_profile := user_profile, memory := memory,
      isFitted := true, splitterSet := true, sessionId := none,
      db := some persisted }
  clear_memory c store newId

/-- The loop of `_check_documents`: `enumerate` the batch and raise
`ValueError` naming the index of the first element that is not a
`Document`. -/
def checkDocsFrom : List PyVal → Nat → Except PyErr Unit
  | [], _ => .ok ()
  | v :: vs, i =>
    if v.isDoc then checkDocsFrom vs (i + 1) else .error (.valueError i)

/-- `CloneLLM._check_documents`: the Python expression
`documents or self.documents` falls back to `self.documents` when the
argument is `None` or an empty list; enumerating Python `None` raises
`TypeError`. -/
def _check_documents (c : CloneLLM) (docs : Option (List PyVal)) :
    Except PyErr Unit :=
  let target : Option (List PyVal) :=
    match docs with
    | some l => if l.isEmpty then c.documents else some l
    | none => c.documents
  match target with
  | none => .error .typeError
  | some l => checkDocsFrom l 0

/-- `CloneLLM._check_is_fitted`: raises `AttributeError` when the fitted
flag is unset, the index is `None`, or (for `update`) the splitter is
`None`. -/
def _check_is_fitted (c : CloneLLM) (from_update : Bool) :
    Except PyErr Unit :=
  if !c.isFitted || c.db.isNone || (from_update && !c.splitterSet) then
    .error .attributeError
  else
    .ok ()

/-- `CloneLLM.fit`: validate `self.documents`, split them, build a fresh
index from the chunks, set the fitted flag.  `split_documents(None)`
(possible only on the `from_persist_directory` path, where the
validation itself already raises) would raise `TypeError`. -/
def fit (env : ChainEnv) (c : CloneLLM) : Except PyErr Unit × CloneLLM :=
  match _check_documents c none with
  | .error e => (.error e, c)
  | .ok _ =>
    match c.documents with
    | none => (.error .typeError, c)
    | some ds => (.ok (), { c with db := some (env.split ds), isFitted := true })

/-- `CloneLLM.update`: check fitted, validate the NEW batch — and then
split `self.documents` (not the argument; the line reads
`documents = self._splitter.split_documents(self.documents)`) and add
the resulting chunks to the existing index. -/
def update (env : ChainEnv) (c : CloneLLM) (documents : List PyVal) :
    Except PyErr Unit × CloneLLM :=
  match _check_is_fitted c true with
  | .error e => (.error e, c)
  | .ok _ =>
    match _check_documents c (some documents) with
    | .error e => (.error e, c)
    | .ok _ =>
      match c.documents with
      | none => (.error .typeError, c)
      | some selfDocs =>
        match c.db with
        | none => (.error .attributeError, c)
        | some idx => (.ok (), { c with db := some (idx ++ env.split selfDocs) })

/-- `CloneLLM.completion`: check fitted, then either the stateless RAG
chain (`memory` falsy: retrieve top-1 for the prompt, assemble with the
profile, generate, return the text, never touching the session store) or
the history-aware chain (`memory` truthy: read the current session's
history, contextualize the prompt against it, retrieve, generate with
history, and append the user and assistant turns to that history). -/
def completion (env : ChainEnv) (bound : Int) (c : CloneLLM)
    (store : Store) (prompt : String) : Except PyErr String × Store :=
  match _check_is_fitted c false with
  | .error e => (.error e, store)
  | .ok _ =>
    match c.db with
    | none => (.error .attributeError, store)
    | some idx =>
      if c.memory.getD false then
        let got := get_session_history bound store c.sessionId
        let store1 := got.1
        let hist := got.2
        let q := env.contextualize hist.messages prompt
        let context := env.retrieve idx q 1
        let answer :=
          env.generate (env.renderH c.user_profile context hist.messages prompt)
        let hist2 := addMessages hist [Msg.human prompt, Msg.ai answer]
        (.ok answer, store1.set c.sessionId hist2)
      else
        let context := env.retrieve idx prompt 1
        (.ok (env.generate (env.render c.user_profile context prompt)), store)

/-- A concrete capability environment used by the closed witnesses. -/
def sampleEnv : ChainEnv where
  split := fun l => l
  retrieve := fun idx _ k => idx.take k
  contextualize := fun _ q => q
  render := fun _ _ q => q
  renderH := fun _ _ _ q => q
  generate := fun s => "echo " ++ s

/-- C4 (failing input): a fitted clone whose fit-time corpus was
`[doc "A"]` (index holding its chunk) is updated with the new batch
`[doc "B"]`.  The code validates the new batch and then splits and adds
`self.documents`, so the index gains the chunk of `"A"` again and
nothing of `"B"` — against the spec's "splits and adds new documents to
the existing index". -/
theorem update_adds_fit_corpus_not_new_docs :
    update sampleEnv
      { model := "m", documents := some [PyVal.doc "A"], user_profile := none,
        memory := none, isFitted := true, splitterSet := true,
        sessionId := some "s", db := some [PyVal.doc "A"] }
      [PyVal.doc "B"] =
    (.ok (),
      { model := "m", documents := some [PyVal.doc "A"], user_profile := none,
        memory := none, isFitted := true, splitterSet := true,
        sessionId := some "s", db := some [PyVal.doc "A", PyVal.doc "A"] }) := by
  rfl

/-- C5: on an instance whose fitted flag is unset, `completion` and
`update` both raise `AttributeError` from the first guard, and neither
the instance (in particular its index) nor the session store changes. -/
theorem unfitted_precondition (env : ChainEnv) (bound : Int) (c : CloneLLM)
    (store : Store) (prompt : String) (docs : List PyVal)
    (h : c.isFitted = false) :
    completion env bound c store prompt = (.error .attributeError, store) ∧
    update env c docs = (.error .attributeError, c) := by
  constructor
  · simp [completion, _check_is_fitted, h]
  · simp [update, _check_is_fitted, h]

/-- Closed instance of `unfitted_precondition` on a freshly constructed,
never-fitted clone. -/
theorem unfitted_precondition_witness :
    completion sampleEnv 0
      { model := "m", documents := some [PyVal.doc "d"], user_profile := none,
        memory := none, isFitted := false, splitterSet := true,
        sessionId := some "s", db := none }
      [] "hi" = (.error .attributeError, []) ∧
    update sampleEnv
      { model := "m", documents := some [PyVal.doc "d"], user_profile := none,
        memory := none, isFitted := false, splitterSet := true,
        sessionId := some "s", db := none }
      [PyVal.doc "e"] =
      (.error .attributeError,
        { model := "m", documents := some [PyVal.doc "d"], user_profile := none,
          memory := none, isFitted := false, splitterSet := true,
          sessionId := some "s", db := none }) :=
  unfitted_precondition sampleEnv 0 _ [] "hi" [PyVal.doc "e"] rfl

theorem checkDocsFrom_first_bad (docs : List PyVal) (n i : Nat)
    (hi : docs.findIdx (fun v => !v.isDoc) = i) (hlt : i < docs.length) :
    checkDocsFrom docs n = .error (.valueError (n + i)) := by
  induction docs generalizing n i with
  | nil => simp at hlt
  | cons d ds ih =>
    by_cases hd : d.isDoc = true
    · have hfi : (d :: ds).findIdx (fun v => !v.isDoc) =
          ds.findIdx (fun v => !v.isDoc) + 1 := by
        simp [List.findIdx_cons, hd]
      rw [hfi] at hi
      have hj : ds.findIdx (fun v => !v.isDoc) = i - 1 := by omega
      have hjlt : i - 1 < ds.length := by
        simp only [List.length_cons] at hlt
        omega
      have := ih (n + 1) (i - 1) hj hjlt
      simp only [checkDocsFrom, hd, if_true, this]
      have : n + 1 + (i - 1) = n + i := by omega
      rw [this]
    · have hi0 : i = 0 := by
        have : (d :: ds).findIdx (fun v => !v.isDoc) = 0 := by
          simp [List.findIdx_cons, hd]
        omega
      subst hi0
      simp [checkDocsFrom, hd]

/-- C6: when a batch contains a non-`Document` element, `fit` (whose
batch is the instance's corpus, validated before anything else — no
fittedness precondition) and `update` (once past its fitted guard, the
only code before validation) raise `ValueError` carrying the index of
the first offending element, and return with the instance — in
particular its retrieval index — unchanged. -/
theorem invalid_document_aborts (env : ChainEnv) (c : CloneLLM)
    (docs : List PyVal) (i : Nat)
    (hi : docs.findIdx (fun v => !v.isDoc) = i)
    (hlt : i < docs.length) :
    (_check_is_fitted c true = .ok () →
      update env c docs = (.error (.valueError i), c)) ∧
    (c.documents = some docs → fit env c = (.error (.valueError i), c)) := by
  have hcheck : checkDocsFrom docs 0 = .error (.valueError i) := by
    have := checkDocsFrom_first_bad docs 0 i hi hlt
    simpa using this
  have hne : docs.isEmpty = false := by
    cases docs with
    | nil => simp at hlt
    | cons d ds => rfl
  constructor
  · intro hfitted
    simp [update, hfitted, _check_documents, hne, hcheck]
  · intro hdocs
    simp [fit, _check_documents, hdocs, hcheck]

/-- Closed instances of `invalid_document_aborts`: a fitted clone's
`update` with a batch whose second element is a plain string errors at
index 1; a fresh, never-fitted clone's `fit` over a corpus whose only
element is malformed errors at index 0, both leaving the instance as it
was. -/
theorem invalid_document_aborts_witness :
    update sampleEnv
      { model := "m", documents := some [PyVal.doc "A", PyVal.other "oops"],
        user_profile := none, memory := none, isFitted := true,
        splitterSet := true, sessionId := some "s", db := some [] }
      [PyVal.doc "A", PyVal.other "oops"] =
      (.error (.valueError 1),
        { model := "m", documents := some [PyVal.doc "A", PyVal.other "oops"],
          user_profile := none, memory := none, isFitted := true,
          splitterSet := true, sessionId := some "s", db := some [] }) ∧
    fit sampleEnv
      { model := "m", documents := some [PyVal.other "bad"],
        user_profile := none, memory := none, isFitted := false,
        splitterSet := true, sessionId := some "id", db := none } =
      (.error (.valueError 0),
        { model := "m", documents := some [PyVal.other "bad"],
          user_profile := none, memory := none, isFitted := false,
          splitterSet := true, sessionId := some "id", db := none }) :=
  ⟨(invalid_document_aborts sampleEnv _ [PyVal.doc "A", PyVal.other "oops"] 1
      (by decide) (by decide)).1 rfl,
   (invalid_document_aborts sampleEnv _ [PyVal.other "bad"] 0
      (by decide) (by decide)).2 rfl⟩


/-- A fresh, never-fitted clone whose corpus holds one malformed entry;
used by the closed witnesses. -/
def sampleUnfitted : CloneLLM :=
  { model := "m", documents := some [PyVal.other "bad"], user_profile := none,
    memory := none, isFitted := false, splitterSet := true,
    sessionId := some "id", db := none }

/-- A fitted clone with memory enabled on session `"old"`; used by the
closed witnesses. -/
def sampleFitted : CloneLLM :=
  { model := "m", documents := none, user_profile := none,
    memory := some true, isFitted := true, splitterSet := true,
    sessionId := some "old", db := some [PyVal.doc "d"] }

/-- A store holding two turns for session `"old"`; used by the closed
witnesses. -/
def sampleStore : Store :=
  [(some "old", ⟨(4 : Int), [Msg.human "p", Msg.ai "a"]⟩)]

/-- C7 (counterexample): `from_persist_directory` is a construction path
whose body never runs `fit` — it only loads the persisted collection and
sets the fitted flag — yet the instance it constructs already has a
non-None retrieval index. -/
theorem from_persist_directory_db_not_none :
    (from_persist_directory [PyVal.doc "d"] "m" none none [] "id").1.db ≠
      none := by
  simp [from_persist_directory, clear_memory]

/-- C7 (amended): for instances built by `__init__` the retrieval index
starts as None and stays None across `clear_memory`, a failing `update`
(on an index-less instance the fitted guard fires) and a failing `fit`;
`completion` assigns no instance attribute at all.  Only a successful
`fit` (or `afit`, embedded by the same function) replaces it.  The
exception the counterexample forces: `from_persist_directory` constructs
its instance with the index already holding the persisted collection,
without `fit` having run. -/
theorem db_none_until_fit (model : String) (documents : List PyVal)
    (profile : Option String) (mem : Option Bool) (store : Store)
    (newId : String) (env : ChainEnv) (c : CloneLLM) (docs : List PyVal)
    (persisted : List PyVal) :
    (CloneLLM.init model documents profile mem store newId).1.db = none ∧
    (c.db = none → (update env c docs).2.db = none) ∧
    (clear_memory c store newId).1.db = c.db ∧
    (c.db = none → ∀ e, (fit env c).1 = .error e → (fit env c).2.db = none) ∧
    (from_persist_directory persisted model profile mem store newId).1.db =
      some persisted := by
  refine ⟨rfl, ?_, rfl, ?_, rfl⟩
  · intro hdb
    simp [update, _check_is_fitted, hdb]
  · intro hdb e herr
    unfold fit at herr ⊢
    cases hcd : _check_documents c none with
    | error e' => simp [hcd, hdb]
    | ok u =>
      cases hds : c.documents with
      | none => simp [hcd, hds, hdb]
      | some ds => simp [hcd, hds] at herr

/-- Closed instance of `db_none_until_fit` on `sampleUnfitted` (whose
`fit` fails on the malformed corpus entry). -/
theorem db_none_until_fit_witness :
    (CloneLLM.init "m" [PyVal.other "bad"] none none [] "id").1.db = none ∧
    (sampleUnfitted.db = none →
      (update sampleEnv sampleUnfitted [PyVal.doc "x"]).2.db = none) ∧
    (clear_memory sampleUnfitted [] "id2").1.db = sampleUnfitted.db ∧
    (sampleUnfitted.db = none →
      ∀ e, (fit sampleEnv sampleUnfitted).1 = .error e →
        (fit sampleEnv sampleUnfitted).2.db = none) ∧
    (from_persist_directory [PyVal.doc "p"] "m" none none [] "id").1.db =
      some [PyVal.doc "p"] :=
  db_none_until_fit "m" [PyVal.other "bad"] none none [] "id" sampleEnv
    sampleUnfitted [PyVal.doc "x"] [PyVal.doc "p"]

/-- C8: with `memory` disabled (falsy) on a fitted instance,
`completion` runs the stateless chain: top-1 retrieval for the prompt,
prompt assembly with the profile, one generation; the session store is
returned exactly as it was (no entry added, none changed, none read —
the result does not depend on the store at all). -/
theorem completion_stateless_when_memory_off (env : ChainEnv) (bound : Int)
    (c : CloneLLM) (store : Store) (prompt : String) (idx : List PyVal)
    (hfit : c.isFitted = true) (hdb : c.db = some idx)
    (hmem : c.memory.getD false = false) :
    completion env bound c store prompt =
      (.ok (env.generate (env.render c.user_profile
        (env.retrieve idx prompt 1) prompt)), store) := by
  simp [completion, _check_is_fitted, hfit, hdb, hmem]

/-- Closed instance of `completion_stateless_when_memory_off`: a fitted
memory-off clone answers and the store (holding one unrelated session)
is untouched. -/
theorem completion_stateless_witness :
    completion sampleEnv 0
      { sampleFitted with memory := some false } sampleStore "Who are you?" =
      (.ok (sampleEnv.generate (sampleEnv.render none
          (sampleEnv.retrieve [PyVal.doc "d"] "Who are you?" 1)
          "Who are you?")), sampleStore) :=
  completion_stateless_when_memory_off sampleEnv 0
    { sampleFitted with memory := some false } sampleStore "Who are you?"
    [PyVal.doc "d"] rfl rfl rfl

/-- C9: `clear_memory` clears the current session's history and installs
a freshly generated session id; provided the fresh id is new to the
store (which the uuid generation guarantees), the next memory-enabled
`completion` finds no history for it — it contextualizes and generates
against the empty message list, carrying nothing over from the prior
session, and afterwards the new session's log holds exactly the new user
and assistant turns. -/
theorem clear_memory_resets (env : ChainEnv) (bound : Int) (c : CloneLLM)
    (store : Store) (newId : String) (prompt : String) (idx : List PyVal)
    (hfit : c.isFitted = true) (hdb : c.db = some idx)
    (hmem : c.memory.getD false = true)
    (hfresh : (clear_memory c store newId).2.find (some newId) = none) :
    (clear_memory c store newId).1.sessionId = some newId ∧
    (clear_memory c store newId).2.find c.sessionId = none ∧
    completion env bound (clear_memory c store newId).1
        (clear_memory c store newId).2 prompt =
      (.ok (env.generate (env.renderH c.user_profile
          (env.retrieve idx (env.contextualize [] prompt) 1) [] prompt)),
        (((clear_memory c store newId).2.set (some newId) ⟨bound, []⟩).set
          (some newId)
          (addMessages ⟨bound, []⟩
            [Msg.human prompt,
             Msg.ai (env.generate (env.renderH c.user_profile
               (env.retrieve idx (env.contextualize [] prompt) 1) []
               prompt))]))) := by
  have hf : (clear_session_history store c.sessionId).find (some newId) =
      none := by
    simpa [clear_memory] using hfresh
  refine ⟨rfl, ?_, ?_⟩
  · exact find_erase_self store c.sessionId
  · simp [completion, _check_is_fitted, hfit, hdb, hmem,
      get_session_history, clear_memory, hf]

/-- Closed instance of `clear_memory_resets`: the prior session "old"
had two messages; after the reset the next memory-enabled completion
sees the empty history and the new session holds only the fresh turns. -/
theorem clear_memory_resets_witness :
    (clear_memory sampleFitted sampleStore "new").1.sessionId = some "new" ∧
    (clear_memory sampleFitted sampleStore "new").2.find
      sampleFitted.sessionId = none ∧
    completion sampleEnv 4 (clear_memory sampleFitted sampleStore "new").1
        (clear_memory sampleFitted sampleStore "new").2 "q" =
      (.ok (sampleEnv.generate (sampleEnv.renderH sampleFitted.user_profile
          (sampleEnv.retrieve [PyVal.doc "d"]
            (sampleEnv.contextualize [] "q") 1) [] "q")),
        (((clear_memory sampleFitted sampleStore "new").2.set (some "new")
            ⟨(4 : Int), []⟩).set (some "new")
          (addMessages ⟨(4 : Int), []⟩
            [Msg.human "q",
             Msg.ai (sampleEnv.generate (sampleEnv.renderH
               sampleFitted.user_profile
               (sampleEnv.retrieve [PyVal.doc "d"]
                 (sampleEnv.contextualize [] "q") 1) [] "q"))]))) :=
  clear_memory_resets sampleEnv 4 sampleFitted sampleStore "new" "q"
    [PyVal.doc "d"] rfl rfl rfl (by decide)
